import Mathlib

/-!
Shallow embedding of the stealth detection core of the drone-recon-ops
repository.

Namespace `DS` embeds the TypeScript prototype from
`src/docs/IMPLEMENTATION_GUIDE.md`:
  - `LineOfSightCalculator.calculateVisibility` (section 2.2),
  - `DetectionSystem.checkDetection`, `updateDetectionState`,
    `updateAlertTimer` (section 2.3).
Real numbers stand in for JavaScript floats.  The Phaser library
primitives used by that code are modelled directly:
  - `Phaser.Math.Distance.Between` as the Euclidean distance,
  - `Phaser.Math.Angle.Between` as atan2 (radians, like the library),
  - `Phaser.Math.Angle.ShortestBetween` as the wrap of the difference
    into the half-open interval from -180 to 180,
  - `Phaser.Geom.Intersects.LineToRectangle` as non-empty intersection
    of the closed segment with the solid axis-aligned rectangle.

Namespace `GD` embeds the Godot prototype `godot_project/scripts/enemy.gd`
(suspicion accumulation, decay and the PATROL/SUSPICIOUS/ALERT/
INVESTIGATING behaviour states).  Engine queries (raycasts, areas,
positions of scene nodes) are supplied as per-tick inputs; all arithmetic
is rational, so ticks evaluate by `decide`.
-/

namespace DS

open Classical

/-- 2D point, mirroring the `Vector2` of `src/types`. -/
structure Vec2 where
  x : ℝ
  y : ℝ

/-- `Phaser.Math.Distance.Between`: Euclidean distance. -/
noncomputable def distBetween (a b : Vec2) : ℝ :=
  Real.sqrt ((b.x - a.x) ^ 2 + (b.y - a.y) ^ 2)

/-- `Phaser.Math.Angle.Between`: `Math.atan2(y2 - y1, x2 - x1)`.
JavaScript atan2 agrees with the argument of the complex number
`x + y*i`, with `atan2 0 0 = 0`. -/
noncomputable def jsAtan2 (y x : ℝ) : ℝ :=
  Complex.arg { re := x, im := y }

/-- `Phaser.Math.Angle.ShortestBetween angle1 angle2`: the difference
`angle2 - angle1` wrapped into the half-open interval from -180 to 180
(`difference - Math.floor((difference + 180) / 360) * 360`, with an
early return of 0 for a zero difference). -/
noncomputable def shortestBetween (angle1 angle2 : ℝ) : ℝ :=
  let difference := angle2 - angle1
  if difference = 0 then 0
  else difference - (⌊(difference + 180) / 360⌋ : ℝ) * 360

/-- `DetectorType` from `src/types/detection.ts`. -/
inductive DetectorType where
  | visual
  | audio
  | motion
deriving DecidableEq

/-- `IDetector` from `src/types/detection.ts`. -/
structure IDetector where
  id : String
  position : Vec2
  range : ℝ
  fieldOfView : ℝ
  direction : ℝ
  isActive : Bool
  detectorType : DetectorType

/-- Bounds of a `Phaser.GameObjects.Rectangle` obstacle. -/
structure Rect where
  x : ℝ
  y : ℝ
  width : ℝ
  height : ℝ

/-- `Phaser.Geom.Intersects.LineToRectangle`: the closed segment from
`a` to `b` meets the solid axis-aligned rectangle `r` (the library
tests endpoint containment and the four edges, which is equivalent for
a solid rectangle). -/
def lineIntersectsRect (a b : Vec2) (r : Rect) : Prop :=
  ∃ t : ℝ, 0 ≤ t ∧ t ≤ 1 ∧
    r.x ≤ a.x + t * (b.x - a.x) ∧ a.x + t * (b.x - a.x) ≤ r.x + r.width ∧
    r.y ≤ a.y + t * (b.y - a.y) ∧ a.y + t * (b.y - a.y) ≤ r.y + r.height

/-- `LineOfSightCalculator.hasLineOfSight`: no registered obstacle
intersects the segment between the two points. -/
def hasLineOfSight (obstacles : List Rect) (a b : Vec2) : Prop :=
  ∀ r ∈ obstacles, ¬ lineIntersectsRect a b r

/-- `LineOfSightCalculator.calculateVisibility`: range gate, then the
field-of-view gate (`Angle.Between` yields radians while `direction`
and `fieldOfView` are degrees; the source compares them as written),
then occlusion, then the linear distance falloff `1 - distance/range`. -/
noncomputable def calculateVisibility
    (obstacles : List Rect) (detector : IDetector) (target : Vec2) : ℝ :=
  let distance := distBetween detector.position target
  if distance > detector.range then 0
  else if detector.fieldOfView < 360 ∧
      |shortestBetween detector.direction
        (jsAtan2 (target.y - detector.position.y)
                 (target.x - detector.position.x))| >
        detector.fieldOfView / 2 then 0
  else if ¬ hasLineOfSight obstacles detector.position target then 0
  else 1 - distance / detector.range

/-- `DetectionLevel` from `src/types`. -/
inductive DetectionLevel where
  | SAFE
  | CAUTION
  | ALERT
  | DISCOVERED
deriving DecidableEq

/-- Escalation order of the four levels, used to speak about
increases and decreases of the alert state. -/
def rank : DetectionLevel → ℕ
  | .SAFE => 0
  | .CAUTION => 1
  | .ALERT => 2
  | .DISCOVERED => 3

/-- Payload of the `detection:stateChanged` scene event. -/
structure StateChangedEvent where
  previous : DetectionLevel
  current : DetectionLevel
deriving DecidableEq

/-- The mutable state of `DetectionSystem` relevant to alerting:
`currentDetectionLevel` and `alertTimer`. -/
structure SysState where
  currentDetectionLevel : DetectionLevel
  alertTimer : ℝ

/-- `ALERT_TIMEOUT` of `DetectionSystem` (30000 ms). -/
def ALERT_TIMEOUT : ℝ := 30000

/-- `DetectionResult` from `src/types/detection.ts`. -/
structure DetectionResult where
  detected : Prop
  detectionLevel : ℝ
  detector : IDetector
  distance : ℝ

/-- `AudioZone` from `src/types/detection.ts`. -/
structure AudioZone where
  center : Vec2
  radius : ℝ
  sensitivity : ℝ

/-- The new `currentDetectionLevel`/`alertTimer` computed by
`DetectionSystem.updateDetectionState` (its threshold cascade; the
event emission is layered on top in `updateDetectionState`). -/
noncomputable def nextDetectionState (detectionLevel : ℝ) (s : SysState) : SysState :=
  if detectionLevel > 0.8 then
    { currentDetectionLevel := .DISCOVERED, alertTimer := ALERT_TIMEOUT }
  else if detectionLevel > 0.5 then
    { currentDetectionLevel := .ALERT, alertTimer := ALERT_TIMEOUT }
  else if detectionLevel > 0.2 then
    { s with currentDetectionLevel := .CAUTION }
  else if s.alertTimer ≤ 0 then
    { s with currentDetectionLevel := .SAFE }
  else s

/-- `DetectionSystem.updateDetectionState`: apply the threshold cascade
and emit one `detection:stateChanged` event exactly when the level
changed. -/
noncomputable def updateDetectionState (detectionLevel : ℝ) (s : SysState) :
    SysState × List StateChangedEvent :=
  let s' := nextDetectionState detectionLevel s
  (s',
   if s.currentDetectionLevel ≠ s'.currentDetectionLevel then
     [{ previous := s.currentDetectionLevel,
        current := s'.currentDetectionLevel }]
   else [])

/-- `DetectionSystem.updateAlertTimer`: while the timer is positive it
is decremented by the elapsed time; if it thereby expires and the level
is not DISCOVERED, the level is set to SAFE and a single event with the
hard-coded payload previous = ALERT, current = SAFE is emitted. -/
noncomputable def updateAlertTimer (deltaTime : ℝ) (s : SysState) :
    SysState × List StateChangedEvent :=
  if 0 < s.alertTimer then
    if s.alertTimer - deltaTime ≤ 0 ∧ s.currentDetectionLevel ≠ .DISCOVERED then
      ({ currentDetectionLevel := .SAFE, alertTimer := s.alertTimer - deltaTime },
       [{ previous := .ALERT, current := .SAFE }])
    else
      ({ s with alertTimer := s.alertTimer - deltaTime }, [])
  else (s, [])

/-- The visual loop of `DetectionSystem.checkDetection`: skip inactive
detectors (`continue`), give non-visual detectors a detection level of
0, push one result per surviving detector, and keep the running
maximum of the pushed levels (its seed 0 modelled as the base of the
recursion; the maximum of a set is independent of fold direction). -/
noncomputable def visualSweep (obstacles : List Rect) (detectors : List IDetector)
    (target : Vec2) : List DetectionResult × ℝ :=
  match detectors with
  | [] => ([], 0)
  | detector :: rest =>
    let tail := visualSweep obstacles rest target
    if detector.isActive then
      let distance := distBetween detector.position target
      let detectionLevel :=
        if detector.detectorType = .visual then
          calculateVisibility obstacles detector target
        else 0
      ({ detected := detectionLevel > 0, detectionLevel := detectionLevel,
         detector := detector, distance := distance } :: tail.1,
       max detectionLevel tail.2)
    else tail

/-- The virtual detector `checkAudioDetection` builds for a triggered
zone.  The source interpolates the zone center into the id string; real
numbers have no canonical string form, so only the prefix is kept. -/
def audioDetectorFor (zone : AudioZone) : IDetector :=
  { id := "audio", position := zone.center, range := zone.radius,
    fieldOfView := 360, direction := 0, isActive := true,
    detectorType := .audio }

/-- `DetectionSystem.checkAudioDetection`: a zone produces a result
exactly when the target is within its radius and at least as loud as
its sensitivity; the level is `min 1 (noiseLevel / 10)`. -/
noncomputable def checkAudioDetection (zones : List AudioZone) (target : Vec2)
    (noiseLevel : ℝ) : List DetectionResult :=
  match zones with
  | [] => []
  | zone :: rest =>
    let tail := checkAudioDetection rest target noiseLevel
    let distance := distBetween zone.center target
    if distance ≤ zone.radius ∧ noiseLevel ≥ zone.sensitivity then
      { detected := True, detectionLevel := min 1 (noiseLevel / 10),
        detector := audioDetectorFor zone, distance := distance } :: tail
    else tail

/-- The state of a `DetectionSystem` instance.  The `Map` of detectors
is modelled as a list in iteration order. -/
structure DetectionSystem where
  detectors : List IDetector
  audioZones : List AudioZone
  obstacles : List Rect
  state : SysState

/-- `DetectionSystem.checkDetection`: run the visual loop, append the
audio results, and drive `updateDetectionState` with the maximum of the
visual loop alone (the audio levels are not folded into
`maxDetectionLevel` by the source). -/
noncomputable def checkDetection (sys : DetectionSystem) (target : Vec2)
    (noiseLevel : ℝ) :
    DetectionSystem × List DetectionResult × List StateChangedEvent :=
  let sweep := visualSweep sys.obstacles sys.detectors target
  let audioResults := checkAudioDetection sys.audioZones target noiseLevel
  let step := updateDetectionState sweep.2 sys.state
  ({ sys with state := step.1 }, sweep.1 ++ audioResults, step.2)

/-- One tick of the loop after detection strength has dropped to zero:
the per-frame `update(deltaTime)` (which runs `updateAlertTimer`)
followed by a `checkDetection` evaluation with maximum strength 0. -/
noncomputable def zeroTick (dt : ℝ) (s : SysState) : SysState :=
  nextDetectionState 0 (updateAlertTimer dt s).1

/-- Iterated `zeroTick` over a list of per-tick elapsed times. -/
noncomputable def zeroRun (dts : List ℝ) (s : SysState) : SysState :=
  dts.foldl (fun s dt => zeroTick dt s) s

end DS

namespace GD

/-- `Enemy.State` from `enemy.gd`. -/
inductive EState where
  | PATROL
  | SUSPICIOUS
  | ALERT
  | INVESTIGATING
deriving DecidableEq

/-- The per-enemy fields of `enemy.gd` that the detection logic reads
and writes: the behaviour state, `suspicion_level`, `alert_timer`, and
the exported tuning parameters (their script defaults are 200, 100,
0.5, 0.3 and 5).  Movement, rotation and rendering fields are engine
state outside the detection logic. -/
structure EnemyS where
  state : EState
  suspicion : ℚ
  alertTimer : ℚ
  visionRange : ℚ
  audioRange : ℚ
  detectionThreshold : ℚ
  suspicionDecay : ℚ
  alertDuration : ℚ
deriving DecidableEq

/-- An `Enemy` as spawned: `State.PATROL`, zero suspicion and timer,
script-default parameters. -/
def enemyDefault : EnemyS :=
  { state := .PATROL, suspicion := 0, alertTimer := 0,
    visionRange := 200, audioRange := 100, detectionThreshold := 0.5,
    suspicionDecay := 0.3, alertDuration := 5 }

/-- The engine-supplied facts one `_physics_process` tick observes:
whether a player is registered and not crashed, the results of the
`_can_see_player` and `_can_hear_player` queries (vision-cone test and
raycast, area and speed test), the distance to the player, the frame
delta, and whether `_investigate` has reached the last known player
position. -/
structure TickEnv where
  playerActive : Bool
  canSee : Bool
  canHear : Bool
  distance : ℚ
  delta : ℚ
  reachedTarget : Bool
deriving DecidableEq

/-- Godot `clamp(value, lo, hi)`. -/
def gclamp (value lo hi : ℚ) : ℚ := min (max value lo) hi

/-- `Enemy._become_alert` (signal emissions are external effects and
not part of the enemy state). -/
def becomeAlert (e : EnemyS) : EnemyS :=
  if e.state ≠ .ALERT then
    { e with state := .ALERT, alertTimer := e.alertDuration }
  else e

/-- `Enemy._become_suspicious`. -/
def becomeSuspicious (e : EnemyS) : EnemyS :=
  if e.state = .PATROL then { e with state := .SUSPICIOUS } else e

/-- `Enemy._update_detection`: accumulate suspicion from vision and
audio, decay it while patrolling, clamp to the unit interval, then run
the threshold transitions. -/
def updateDetection (env : TickEnv) (e : EnemyS) : EnemyS :=
  if ¬ env.playerActive then e
  else
    let s1 :=
      if env.canSee then
        e.suspicion + (1 - env.distance / e.visionRange) * env.delta * 2
      else e.suspicion
    let s2 :=
      if env.canHear then
        s1 + (1 - env.distance / e.audioRange) * env.delta * (1 / 2)
      else s1
    let s3 :=
      if 0 < s2 ∧ e.state = .PATROL then s2 - e.suspicionDecay * env.delta
      else s2
    let s4 := gclamp s3 0 1
    let e1 := { e with suspicion := s4 }
    if e.detectionThreshold ≤ s4 then becomeAlert e1
    else if 0.2 < s4 ∧ e1.state = .PATROL then becomeSuspicious e1
    else e1

/-- `Enemy._suspicious`: decay suspicion (without clamping) and fall
back to patrol once it is no longer positive.  The look-around rotation
is engine state. -/
def suspiciousStep (delta : ℚ) (e : EnemyS) : EnemyS :=
  let s := e.suspicion - e.suspicionDecay * delta * (1 / 2)
  if s ≤ 0 then { e with suspicion := s, state := .PATROL }
  else { e with suspicion := s }

/-- `Enemy._alert`: count the alert timer down; on expiry return to
patrol and zero the suspicion.  Chasing forces are engine state. -/
def alertStep (delta : ℚ) (e : EnemyS) : EnemyS :=
  let e1 := { e with alertTimer := e.alertTimer - delta }
  if e1.alertTimer ≤ 0 then { e1 with state := .PATROL, suspicion := 0 }
  else e1

/-- `Enemy._investigate`: return to patrol when close enough to the
last known player position (the distance test is the engine query
`reachedTarget`). -/
def investigateStep (env : TickEnv) (e : EnemyS) : EnemyS :=
  if env.reachedTarget then { e with state := .PATROL } else e

/-- `Enemy._physics_process`: `_update_detection` first, then dispatch
on the (possibly updated) behaviour state.  `_patrol` moves the body
but does not touch suspicion, state or timer. -/
def physicsTick (env : TickEnv) (e : EnemyS) : EnemyS :=
  let e1 := updateDetection env e
  match e1.state with
  | .PATROL => e1
  | .SUSPICIOUS => suspiciousStep env.delta e1
  | .ALERT => alertStep env.delta e1
  | .INVESTIGATING => investigateStep env e1

/-- A run of `_physics_process` ticks under the given inputs. -/
def runTicks (envs : List TickEnv) (e : EnemyS) : EnemyS :=
  envs.foldl (fun e env => physicsTick env e) e

/-- A tick in which the guard sees the player at distance 100 (half the
default vision range) for 0.3 simulated seconds. -/
def envSee : TickEnv :=
  { playerActive := true, canSee := true, canHear := false,
    distance := 100, delta := 0.3, reachedTarget := false }

/-- A tick in which the guard neither sees nor hears the player. -/
def envBlind : TickEnv :=
  { playerActive := true, canSee := false, canHear := false,
    distance := 100, delta := 0.3, reachedTarget := false }

end GD

open DS GD

/-- An omnidirectional guard detector at the origin with range 100. -/
def guardOmni : IDetector :=
  { id := "guard1", position := ⟨0, 0⟩, range := 100, fieldOfView := 360,
    direction := 0, isActive := true, detectorType := .visual }

/-- An omnidirectional guard detector at the origin with range 175. -/
def guardOmniFar : IDetector :=
  { id := "guard3", position := ⟨0, 0⟩, range := 175, fieldOfView := 360,
    direction := 0, isActive := true, detectorType := .visual }

/-- An audio zone at the origin with radius 100 and sensitivity 1. -/
def zoneOrigin : AudioZone :=
  { center := ⟨0, 0⟩, radius := 100, sensitivity := 1 }

/-- A system holding one omnidirectional visual guard and one audio
zone, in the initial alert state. -/
def sysMixed : DetectionSystem :=
  { detectors := [guardOmni], audioZones := [zoneOrigin], obstacles := [],
    state := ⟨.SAFE, 0⟩ }

/-- A camera at the origin facing along the x axis whose field-of-view
value is the real number π: since the source compares the
radian-valued target angle against fieldOfView / 2 as written, this
detector places a target on the negative y axis exactly on its
field-of-view boundary. -/
noncomputable def camPiFov : IDetector :=
  { id := "cam", position := ⟨0, 0⟩, range := 100, fieldOfView := Real.pi,
    direction := 0, isActive := true, detectorType := .visual }

/-- A guard at the origin facing 180 degrees with a 90 degree cone. -/
def guardFacingAway : IDetector :=
  { id := "guard2", position := ⟨0, 0⟩, range := 100, fieldOfView := 90,
    direction := 180, isActive := true, detectorType := .visual }

/-- An active motion detector at the origin. -/
def motionDet : IDetector :=
  { id := "motion1", position := ⟨0, 0⟩, range := 50, fieldOfView := 360,
    direction := 0, isActive := true, detectorType := .motion }

/-- An inactive visual detector at the origin. -/
def inactiveDet : IDetector :=
  { id := "idle1", position := ⟨0, 0⟩, range := 50, fieldOfView := 360,
    direction := 0, isActive := false, detectorType := .visual }

/-- A system holding one active motion detector and one inactive
visual detector. -/
def sysRegistry : DetectionSystem :=
  { detectors := [motionDet, inactiveDet], audioZones := [], obstacles := [],
    state := ⟨.SAFE, 0⟩ }

/-- Invariant of the zero-strength run started right after an ALERT
spike: after `c` elapsed time units the system is either still ALERT
with the timer holding the remaining time, or SAFE with the timer
expired and at least ALERT_TIMEOUT elapsed. -/
def alertHysteresisInv (c : ℝ) (s : SysState) : Prop :=
  (s.currentDetectionLevel = .ALERT ∧ s.alertTimer = ALERT_TIMEOUT - c ∧
    c < ALERT_TIMEOUT) ∨
  (s.currentDetectionLevel = .SAFE ∧ s.alertTimer ≤ 0 ∧ ALERT_TIMEOUT ≤ c)


/-- The returned state of `updateDetectionState` is the threshold
cascade `nextDetectionState`. -/
theorem updateDetectionState_fst (lvl : ℝ) (s : SysState) :
    (updateDetectionState lvl s).1 = nextDetectionState lvl s := rfl

/-- Branch-free description of the state returned by
`updateAlertTimer`. -/
theorem updateAlertTimer_fst (dt : ℝ) (s : SysState) :
    (updateAlertTimer dt s).1 =
      if 0 < s.alertTimer then
        if s.alertTimer - dt ≤ 0 ∧ s.currentDetectionLevel ≠ .DISCOVERED then
          ⟨.SAFE, s.alertTimer - dt⟩
        else ⟨s.currentDetectionLevel, s.alertTimer - dt⟩
      else s := by
  unfold updateAlertTimer
  split_ifs <;> rfl

/-- With zero strength the cascade only applies the SAFE rule. -/
theorem nextDetectionState_zero (s : SysState) :
    nextDetectionState 0 s =
      if s.alertTimer ≤ 0 then ⟨.SAFE, s.alertTimer⟩ else s := by
  unfold nextDetectionState
  rw [if_neg (by norm_num), if_neg (by norm_num), if_neg (by norm_num)]

/-- Claim C4: on each tick the state machine applies the highest
applicable threshold: strength above 0.8 yields DISCOVERED and resets
the alert timer to ALERT_TIMEOUT; otherwise strength above 0.5 yields
ALERT and resets the timer; otherwise strength above 0.2 yields CAUTION
without touching the timer; otherwise the state becomes SAFE exactly
when the alert timer is nonpositive and is left unchanged while the
timer is positive.  In particular a strength above both the CAUTION and
the DISCOVERED thresholds lands in DISCOVERED, never CAUTION. -/
theorem C4_threshold_cascade (lvl : ℝ) (s : SysState) :
    (0.8 < lvl →
      (updateDetectionState lvl s).1 = ⟨.DISCOVERED, ALERT_TIMEOUT⟩) ∧
    (lvl ≤ 0.8 → 0.5 < lvl →
      (updateDetectionState lvl s).1 = ⟨.ALERT, ALERT_TIMEOUT⟩) ∧
    (lvl ≤ 0.5 → 0.2 < lvl →
      (updateDetectionState lvl s).1 = ⟨.CAUTION, s.alertTimer⟩) ∧
    (lvl ≤ 0.2 → s.alertTimer ≤ 0 →
      (updateDetectionState lvl s).1 = ⟨.SAFE, s.alertTimer⟩) ∧
    (lvl ≤ 0.2 → 0 < s.alertTimer →
      (updateDetectionState lvl s).1 = s) := by
  refine ⟨fun h1 => ?_, fun h1 h2 => ?_, fun h1 h2 => ?_,
    fun h1 h2 => ?_, fun h1 h2 => ?_⟩ <;>
    rw [updateDetectionState_fst] <;> unfold nextDetectionState <;>
    split_ifs with a b c d <;> first | rfl | linarith

/-- Witness for C4: a strength of 0.9, above every threshold, lands in
DISCOVERED with a freshly reset timer. -/
theorem C4_threshold_cascade_witness :
    (updateDetectionState 0.9 ⟨.SAFE, 0⟩).1 = ⟨.DISCOVERED, ALERT_TIMEOUT⟩ :=
  (C4_threshold_cascade 0.9 ⟨.SAFE, 0⟩).1 (by norm_num)

/-- Counterexample to claim C3: with the alert timer still at its full
positive value, a tick of strength 0.3 moves the state from DISCOVERED
down to CAUTION; the DISCOVERED-with-positive-timer configuration is
itself produced by a single tick of strength 0.9. -/
theorem C3_counterexample :
    (updateDetectionState 0.9 ⟨.SAFE, 0⟩).1 = ⟨.DISCOVERED, ALERT_TIMEOUT⟩ ∧
    (updateDetectionState 0.3 ⟨.DISCOVERED, ALERT_TIMEOUT⟩).1 =
      ⟨.CAUTION, ALERT_TIMEOUT⟩ ∧
    rank .CAUTION < rank .DISCOVERED ∧
    (0 : ℝ) < ALERT_TIMEOUT := by
  refine ⟨?_, ?_, by decide, by norm_num [ALERT_TIMEOUT]⟩ <;>
    rw [updateDetectionState_fst] <;> unfold nextDetectionState <;>
    split_ifs <;> first | rfl | linarith

/-- Claim C3 amended: the state falls to SAFE only on a tick whose
strength is at most 0.2 and whose alert timer is already nonpositive
(for the strength path) or has just crossed zero (for the timer path);
however, the threshold cascade also follows the instantaneous strength
downward regardless of the timer: a strength in (0.5, 0.8] demotes
DISCOVERED to ALERT and a strength in (0.2, 0.5] demotes DISCOVERED or
ALERT to CAUTION even while the alert timer is still positive. -/
theorem C3_decrease_characterisation (lvl dt : ℝ) (s : SysState) :
    (0 < s.alertTimer → s.currentDetectionLevel ≠ .SAFE →
      (updateDetectionState lvl s).1.currentDetectionLevel ≠ .SAFE) ∧
    (rank (updateDetectionState lvl s).1.currentDetectionLevel <
        rank s.currentDetectionLevel →
      ((updateDetectionState lvl s).1.currentDetectionLevel = .SAFE ∧
        s.alertTimer ≤ 0 ∧ lvl ≤ 0.2) ∨
      ((updateDetectionState lvl s).1.currentDetectionLevel = .ALERT ∧
        0.5 < lvl ∧ lvl ≤ 0.8) ∨
      ((updateDetectionState lvl s).1.currentDetectionLevel = .CAUTION ∧
        0.2 < lvl ∧ lvl ≤ 0.5)) ∧
    (rank (updateAlertTimer dt s).1.currentDetectionLevel <
        rank s.currentDetectionLevel →
      (updateAlertTimer dt s).1.currentDetectionLevel = .SAFE ∧
      0 < s.alertTimer ∧ s.alertTimer - dt ≤ 0) := by
  refine ⟨?_, ?_, ?_⟩
  · intro htimer hne
    rw [updateDetectionState_fst]
    unfold nextDetectionState
    split_ifs <;> simp_all <;> linarith
  · rw [updateDetectionState_fst]
    unfold nextDetectionState
    intro hlt
    split_ifs at hlt ⊢ with h1 h2 h3 h4
    · simp at hlt
      cases hs : s.currentDetectionLevel <;> rw [hs] at hlt <;> simp [rank] at hlt
    · exact Or.inr (Or.inl ⟨rfl, h2, le_of_not_lt h1⟩)
    · exact Or.inr (Or.inr ⟨rfl, h3, le_of_not_lt h2⟩)
    · exact Or.inl ⟨rfl, h4, le_of_not_lt h3⟩
    · simp at hlt
  · rw [updateAlertTimer_fst]
    intro hlt
    split_ifs at hlt ⊢ with h1 h2
    · exact ⟨rfl, h1, h2.1⟩
    · simp at hlt
    · simp at hlt

/-- Witness for the amended C3: a strength of 0.3 against state
DISCOVERED with a positive timer is a decrease and is classified by the
CAUTION branch of the characterisation. -/
theorem C3_decrease_characterisation_witness :
    ((updateDetectionState 0.3 ⟨.DISCOVERED, 5⟩).1.currentDetectionLevel = .SAFE ∧
      (⟨.DISCOVERED, 5⟩ : SysState).alertTimer ≤ 0 ∧ (0.3 : ℝ) ≤ 0.2) ∨
    ((updateDetectionState 0.3 ⟨.DISCOVERED, 5⟩).1.currentDetectionLevel = .ALERT ∧
      (0.5 : ℝ) < 0.3 ∧ (0.3 : ℝ) ≤ 0.8) ∨
    ((updateDetectionState 0.3 ⟨.DISCOVERED, 5⟩).1.currentDetectionLevel = .CAUTION ∧
      (0.2 : ℝ) < 0.3 ∧ (0.3 : ℝ) ≤ 0.5) :=
  (C3_decrease_characterisation 0.3 0 ⟨.DISCOVERED, 5⟩).2.1 (by
    have h : (updateDetectionState 0.3 (⟨.DISCOVERED, 5⟩ : SysState)).1 =
        ⟨.CAUTION, 5⟩ := by
      rw [updateDetectionState_fst]
      unfold nextDetectionState
      split_ifs <;> first | rfl | linarith
    rw [h]
    decide)

/-- The event list of `updateDetectionState` is the single transition
event when the cascade changed the level, and empty otherwise. -/
theorem updateDetectionState_snd (lvl : ℝ) (s : SysState) :
    (updateDetectionState lvl s).2 =
      if s.currentDetectionLevel ≠
          (nextDetectionState lvl s).currentDetectionLevel then
        [⟨s.currentDetectionLevel,
          (nextDetectionState lvl s).currentDetectionLevel⟩]
      else [] := rfl

/-- Counterexample to claim C5: from the reachable configuration
CAUTION with a positive alert timer (produced from ALERT by a tick of
strength 0.3), the timer-expiry tick changes the state CAUTION to SAFE
but emits an event whose payload names ALERT, not the true previous
state CAUTION. -/
theorem C5_counterexample :
    (updateDetectionState 0.6 ⟨.SAFE, 0⟩).1 = ⟨.ALERT, ALERT_TIMEOUT⟩ ∧
    (updateDetectionState 0.3 ⟨.ALERT, ALERT_TIMEOUT⟩).1 =
      ⟨.CAUTION, ALERT_TIMEOUT⟩ ∧
    (updateAlertTimer ALERT_TIMEOUT
      ⟨.CAUTION, ALERT_TIMEOUT⟩).1.currentDetectionLevel = .SAFE ∧
    (updateAlertTimer ALERT_TIMEOUT ⟨.CAUTION, ALERT_TIMEOUT⟩).2 =
      [⟨.ALERT, .SAFE⟩] ∧
    DetectionLevel.ALERT ≠ DetectionLevel.CAUTION := by
  refine ⟨?_, ?_, ?_, ?_, by decide⟩
  · rw [updateDetectionState_fst]
    unfold nextDetectionState
    split_ifs <;> first | rfl | linarith
  · rw [updateDetectionState_fst]
    unfold nextDetectionState
    split_ifs <;> first | rfl | linarith
  · rw [updateAlertTimer_fst]
    rw [if_pos (by norm_num [ALERT_TIMEOUT]),
      if_pos ⟨by norm_num, by decide⟩]
  · unfold updateAlertTimer
    rw [if_pos (by norm_num [ALERT_TIMEOUT]),
      if_pos ⟨by norm_num, by decide⟩]

/-- Claim C5 amended: `updateDetectionState` emits exactly one event,
carrying the true previous and new states, on every tick on which the
level changes, and none when it does not; the timer-expiry path of
`updateAlertTimer` also emits exactly one event per expiry and its
current field is the true new state SAFE, but its previous field is
hard-coded to ALERT, which misreports the previous state whenever the
expiring state was not ALERT. -/
theorem C5_event_discipline (lvl dt : ℝ) (s : SysState) :
    ((updateDetectionState lvl s).1.currentDetectionLevel ≠
        s.currentDetectionLevel →
      (updateDetectionState lvl s).2 =
        [⟨s.currentDetectionLevel,
          (updateDetectionState lvl s).1.currentDetectionLevel⟩]) ∧
    ((updateDetectionState lvl s).1.currentDetectionLevel =
        s.currentDetectionLevel →
      (updateDetectionState lvl s).2 = []) ∧
    (∀ ev ∈ (updateAlertTimer dt s).2, ev = ⟨.ALERT, .SAFE⟩) ∧
    ((updateAlertTimer dt s).2 ≠ [] →
      (updateAlertTimer dt s).1.currentDetectionLevel = .SAFE) := by
  refine ⟨?_, ?_, ?_, ?_⟩
  · intro h
    rw [updateDetectionState_fst] at h ⊢
    rw [updateDetectionState_snd, if_pos (Ne.symm h)]
  · intro h
    rw [updateDetectionState_fst] at h
    rw [updateDetectionState_snd, if_neg (fun hne => hne (Eq.symm h))]
  · intro ev hev
    unfold updateAlertTimer at hev
    split_ifs at hev <;> simp_all
  · intro h
    unfold updateAlertTimer at h ⊢
    split_ifs at h ⊢ <;> simp_all

/-- Witness for the amended C5: the tick of strength 0.9 from the
initial state changes SAFE to DISCOVERED and emits exactly the one
event whose payload is that transition. -/
theorem C5_event_discipline_witness :
    (updateDetectionState 0.9 ⟨.SAFE, 0⟩).2 =
      [⟨DetectionLevel.SAFE,
        (updateDetectionState 0.9 ⟨.SAFE, 0⟩).1.currentDetectionLevel⟩] :=
  (C5_event_discipline 0.9 0 ⟨.SAFE, 0⟩).1 (by
    have h : (updateDetectionState 0.9 (⟨.SAFE, 0⟩ : SysState)).1 =
        ⟨.DISCOVERED, ALERT_TIMEOUT⟩ := by
      rw [updateDetectionState_fst]
      unfold nextDetectionState
      split_ifs <;> first | rfl | linarith
    rw [h]
    decide)

/-- One zero-strength tick preserves the hysteresis invariant. -/
theorem zeroTick_inv {dt c : ℝ} {s : SysState} (hdt : 0 < dt)
    (h : alertHysteresisInv c s) :
    alertHysteresisInv (c + dt) (zeroTick dt s) := by
  unfold zeroTick
  rw [updateAlertTimer_fst]
  rcases h with ⟨hl, ht, hc⟩ | ⟨hl, ht, hc⟩
  · have h0 : 0 < s.alertTimer := by rw [ht]; linarith
    rw [if_pos h0]
    by_cases hexp : s.alertTimer - dt ≤ 0
    · rw [if_pos ⟨hexp, by rw [hl]; decide⟩, nextDetectionState_zero]
      rw [if_pos (by simpa using hexp)]
      exact Or.inr ⟨rfl, by simpa using hexp, by rw [ht] at hexp; linarith⟩
    · rw [if_neg (fun hx => hexp hx.1), nextDetectionState_zero]
      rw [if_neg (by simpa using hexp)]
      exact Or.inl ⟨hl, by rw [ht]; ring, by rw [ht] at hexp; push_neg at hexp; linarith⟩
  · rw [if_neg (not_lt.mpr ht), nextDetectionState_zero, if_pos ht]
    exact Or.inr ⟨rfl, ht, by linarith⟩

/-- A whole zero-strength run preserves the hysteresis invariant,
advancing the elapsed time by the sum of the tick deltas. -/
theorem zeroRun_inv (dts : List ℝ) (c : ℝ) (s : SysState)
    (hp : ∀ d ∈ dts, 0 < d) (h : alertHysteresisInv c s) :
    alertHysteresisInv (c + dts.sum) (zeroRun dts s) := by
  induction dts generalizing c s with
  | nil => simpa [zeroRun] using h
  | cons d dts ih =>
    have h1 := zeroTick_inv (hp d (by simp)) h
    have h2 := ih (c + d) (zeroTick d s)
      (fun x hx => hp x (List.mem_cons_of_mem _ hx)) h1
    have hr : zeroRun (d :: dts) s = zeroRun dts (zeroTick d s) := by
      simp [zeroRun]
    rw [hr, List.sum_cons]
    have : c + (d + dts.sum) = c + d + dts.sum := by ring
    rw [this]
    exact h2

/-- Claim C2: a single tick whose strength lies in the ALERT band puts
the machine in ALERT with a full timer; over any following ticks of
zero strength the state stays ALERT as long as the total elapsed time
is below ALERT_TIMEOUT, and reads SAFE as soon as the elapsed time has
reached ALERT_TIMEOUT. -/
theorem C2_alert_sticks (s : SysState) (strength : ℝ)
    (h1 : 0.5 < strength) (h2 : strength ≤ 0.8)
    (dts : List ℝ) (hp : ∀ d ∈ dts, 0 < d) :
    (dts.sum < ALERT_TIMEOUT →
      (zeroRun dts
        (updateDetectionState strength s).1).currentDetectionLevel = .ALERT) ∧
    (ALERT_TIMEOUT ≤ dts.sum →
      (zeroRun dts
        (updateDetectionState strength s).1).currentDetectionLevel = .SAFE) := by
  have hs0 : (updateDetectionState strength s).1 = ⟨.ALERT, ALERT_TIMEOUT⟩ := by
    rw [updateDetectionState_fst]
    unfold nextDetectionState
    rw [if_neg (by linarith), if_pos h1]
  have hinv : alertHysteresisInv 0 (⟨.ALERT, ALERT_TIMEOUT⟩ : SysState) :=
    Or.inl ⟨rfl, by ring, by norm_num [ALERT_TIMEOUT]⟩
  have h := zeroRun_inv dts 0 _ hp hinv
  rw [zero_add] at h
  rw [hs0]
  constructor
  · intro hlt
    rcases h with ⟨hl, _, _⟩ | ⟨_, _, hc⟩
    · exact hl
    · linarith
  · intro hge
    rcases h with ⟨_, _, hc⟩ | ⟨hl, _, _⟩
    · linarith
    · exact hl

/-- Witness for C2: after a strength-0.6 spike and a single later tick
of 20000 ms of silence the state is still ALERT. -/
theorem C2_alert_sticks_witness :
    (zeroRun [20000]
      (updateDetectionState 0.6 ⟨.SAFE, 0⟩).1).currentDetectionLevel = .ALERT :=
  (C2_alert_sticks ⟨.SAFE, 0⟩ 0.6 (by norm_num) (by norm_num) [20000]
    (by intro d hd
        rw [List.mem_singleton] at hd
        rw [hd]
        norm_num)).1
    (by norm_num [ALERT_TIMEOUT])

/-- Distance evaluation on a concrete configuration. -/
theorem distBetween_eq {a b : Vec2} {r : ℝ} (hr : 0 ≤ r)
    (h : (b.x - a.x) ^ 2 + (b.y - a.y) ^ 2 = r ^ 2) : distBetween a b = r := by
  rw [distBetween, h, Real.sqrt_sq hr]

/-- A zero-length segment has distance 0. -/
theorem distBetween_self (p : Vec2) : distBetween p p = 0 :=
  distBetween_eq le_rfl (by ring)

/-- With no registered obstacles every line of sight is clear. -/
theorem hasLineOfSight_nil (a b : Vec2) : hasLineOfSight [] a b := by
  intro r hr
  exact absurd hr (List.not_mem_nil r)

/-- Claim C6: for a detector whose field-of-view and occlusion gates
pass, `calculateVisibility` is the linear falloff: at any distance at
least the range — the range itself included — the returned strength is
0, and at any distance strictly below the range it equals
1 - distance / range, which is strictly positive (and tends to 1 as
the distance tends to 0). -/
theorem C6_linear_falloff (obstacles : List Rect) (d : IDetector)
    (target : Vec2) (hR : 0 < d.range)
    (hangle : ¬ (d.fieldOfView < 360 ∧
      |shortestBetween d.direction
        (jsAtan2 (target.y - d.position.y) (target.x - d.position.x))| >
        d.fieldOfView / 2))
    (hlos : hasLineOfSight obstacles d.position target) :
    (d.range ≤ distBetween d.position target →
      calculateVisibility obstacles d target = 0) ∧
    (distBetween d.position target < d.range →
      calculateVisibility obstacles d target =
        1 - distBetween d.position target / d.range ∧
      0 < calculateVisibility obstacles d target) := by
  simp only [calculateVisibility]
  constructor
  · intro hge
    by_cases hgt : distBetween d.position target > d.range
    · rw [if_pos hgt]
    · have heq : distBetween d.position target = d.range :=
        le_antisymm (not_lt.mp hgt) hge
      rw [if_neg hgt, if_neg hangle, if_neg (not_not_intro hlos), heq,
        div_self (ne_of_gt hR)]
      ring
  · intro hlt
    rw [if_neg (not_lt.mpr hlt.le), if_neg hangle, if_neg (not_not_intro hlos)]
    refine ⟨rfl, ?_⟩
    have hdiv : distBetween d.position target / d.range < 1 :=
      (div_lt_one hR).mpr hlt
    linarith

/-- Witness for C6: the omnidirectional guard sees a target at distance
40 with positive strength 1 - 40/100. -/
theorem C6_linear_falloff_witness :
    calculateVisibility [] guardOmni ⟨40, 0⟩ =
      1 - distBetween guardOmni.position ⟨40, 0⟩ / guardOmni.range ∧
    0 < calculateVisibility [] guardOmni ⟨40, 0⟩ :=
  (C6_linear_falloff [] guardOmni ⟨40, 0⟩ (by norm_num [guardOmni])
    (by rintro ⟨h, -⟩
        rw [show guardOmni.fieldOfView = 360 from rfl] at h
        norm_num at h)
    (hasLineOfSight_nil _ _)).2
    (by rw [show guardOmni.position = (⟨0, 0⟩ : Vec2) from rfl,
          distBetween_eq (by norm_num : (0:ℝ) ≤ 40) (by norm_num)]
        rw [show guardOmni.range = 100 from rfl]
        norm_num)

/-- atan2 of a point on the negative y axis is -π/2. -/
theorem jsAtan2_neg_y_axis : jsAtan2 (-50) 0 = -(Real.pi / 2) := by
  have h : ({ re := 0, im := -50 } : ℂ) = (50 : ℝ) * (-Complex.I) := by
    apply Complex.ext <;> simp
  rw [jsAtan2, h, Complex.arg_real_mul _ (by norm_num), Complex.arg_neg_I]

/-- The shortest-between wrap leaves -π/2 unchanged (it already lies in
the wrap interval). -/
theorem shortestBetween_zero_neg_pi_half :
    shortestBetween 0 (-(Real.pi / 2)) = -(Real.pi / 2) := by
  have hpi := Real.pi_pos
  have hpi' := Real.pi_lt_315
  simp only [shortestBetween]
  rw [if_neg (by intro h; nlinarith)]
  have hfl : ⌊(-(Real.pi / 2) - 0 + 180) / 360⌋ = 0 := by
    rw [Int.floor_eq_zero_iff]
    constructor
    · rw [le_div_iff (by norm_num)]
      nlinarith
    · rw [div_lt_iff (by norm_num)]
      nlinarith
  rw [hfl]
  push_cast
  ring

/-- The computed angular difference for the boundary target of
`camPiFov` is exactly half its field of view. -/
theorem camPiFov_boundary_diff :
    |shortestBetween camPiFov.direction
      (jsAtan2 ((-50 : ℝ) - camPiFov.position.y)
               ((0 : ℝ) - camPiFov.position.x))| =
      camPiFov.fieldOfView / 2 := by
  show |shortestBetween 0 (jsAtan2 ((-50 : ℝ) - 0) ((0 : ℝ) - 0))| = Real.pi / 2
  rw [show ((-50 : ℝ) - 0) = -50 by ring, show ((0 : ℝ) - 0) = 0 by ring,
    jsAtan2_neg_y_axis, shortestBetween_zero_neg_pi_half, abs_neg,
    abs_of_nonneg (by positivity)]

/-- Counterexample to claim C7: a target whose computed absolute
angular difference from the facing direction is exactly half the field
of view is not excluded — the gate uses a strict comparison, so the
boundary target at distance 50 gets strength 1/2, not 0. -/
theorem C7_counterexample :
    camPiFov.fieldOfView < 360 ∧
    |shortestBetween camPiFov.direction
      (jsAtan2 ((-50 : ℝ) - camPiFov.position.y)
               ((0 : ℝ) - camPiFov.position.x))| =
      camPiFov.fieldOfView / 2 ∧
    calculateVisibility [] camPiFov ⟨0, -50⟩ = 1 / 2 ∧
    (1 / 2 : ℝ) ≠ 0 := by
  have hd : distBetween (⟨0, 0⟩ : Vec2) ⟨0, -50⟩ = 50 :=
    distBetween_eq (by norm_num) (by norm_num)
  refine ⟨by show Real.pi < 360; linarith [Real.pi_lt_315],
    camPiFov_boundary_diff, ?_, by norm_num⟩
  simp only [calculateVisibility,
    show camPiFov.position = (⟨0, 0⟩ : Vec2) from rfl,
    show camPiFov.range = 100 from rfl,
    show camPiFov.direction = 0 from rfl,
    show camPiFov.fieldOfView = Real.pi from rfl]
  rw [hd]
  rw [if_neg (by norm_num)]
  rw [if_neg ?hangle]
  case hangle =>
    rintro ⟨-, habs⟩
    norm_num at habs
    rw [jsAtan2_neg_y_axis, shortestBetween_zero_neg_pi_half, abs_neg,
      abs_of_nonneg (by positivity : (0 : ℝ) ≤ Real.pi / 2)] at habs
    exact lt_irrefl _ habs
  rw [if_neg (not_not_intro (hasLineOfSight_nil _ _))]
  norm_num

/-- Claim C7 amended: the field-of-view gate is strict.  With the
target in range, a computed absolute angular difference strictly
greater than fieldOfView / 2 forces strength 0, while a difference less
than or equal to fieldOfView / 2 — the boundary included — passes the
gate, leaving the result to the occlusion gate and the distance
falloff. -/
theorem C7_fov_gate (obstacles : List Rect) (d : IDetector) (target : Vec2)
    (hfov : d.fieldOfView < 360)
    (hd : distBetween d.position target ≤ d.range) :
    (|shortestBetween d.direction
        (jsAtan2 (target.y - d.position.y) (target.x - d.position.x))| >
        d.fieldOfView / 2 →
      calculateVisibility obstacles d target = 0) ∧
    (|shortestBetween d.direction
        (jsAtan2 (target.y - d.position.y) (target.x - d.position.x))| ≤
        d.fieldOfView / 2 →
      (hasLineOfSight obstacles d.position target →
        calculateVisibility obstacles d target =
          1 - distBetween d.position target / d.range) ∧
      (¬ hasLineOfSight obstacles d.position target →
        calculateVisibility obstacles d target = 0)) := by
  simp only [calculateVisibility]
  rw [if_neg (not_lt.mpr hd)]
  constructor
  · intro habs
    rw [if_pos ⟨hfov, habs⟩]
  · intro habs
    rw [if_neg (fun h => absurd h.2 (not_lt.mpr habs))]
    constructor
    · intro hlos
      rw [if_neg (not_not_intro hlos)]
    · intro hnlos
      rw [if_pos hnlos]

/-- Witness for the amended C7: the boundary target of `camPiFov`
passes the gate and receives the unoccluded falloff strength. -/
theorem C7_fov_gate_witness :
    calculateVisibility [] camPiFov ⟨0, -50⟩ =
      1 - distBetween camPiFov.position ⟨0, -50⟩ / camPiFov.range :=
  have hd50 : distBetween (⟨0, 0⟩ : Vec2) ⟨0, -50⟩ = 50 :=
    distBetween_eq (by norm_num) (by norm_num)
  ((C7_fov_gate [] camPiFov ⟨0, -50⟩
    (by show Real.pi < 360; linarith [Real.pi_lt_315])
    (by norm_num [camPiFov, hd50])).2
    (by norm_num [camPiFov]
        rw [jsAtan2_neg_y_axis, shortestBetween_zero_neg_pi_half, abs_neg,
          abs_of_nonneg (by positivity : (0 : ℝ) ≤ Real.pi / 2)])).1
    (hasLineOfSight_nil _ _)

/-- JavaScript atan2 at the origin: `Math.atan2(0, 0) = 0`. -/
theorem jsAtan2_zero : jsAtan2 0 0 = 0 := by
  have h : ({ re := 0, im := 0 } : ℂ) = 0 := by
    apply Complex.ext <;> simp
  rw [jsAtan2, h, Complex.arg_zero]

/-- Wrapping the difference from 180 to 0 yields -180. -/
theorem shortestBetween_180_zero : shortestBetween 180 0 = -180 := by
  simp only [shortestBetween]
  rw [if_neg (by norm_num)]
  norm_num

/-- Evaluation of `calculateVisibility` at a coincident target: the
distance is 0, the degenerate angle is atan2(0,0) = 0, and absent
occlusion the result is decided by the field-of-view gate alone. -/
theorem calculateVisibility_self (obstacles : List Rect) (d : IDetector)
    (hR : 0 < d.range)
    (hlos : hasLineOfSight obstacles d.position d.position) :
    calculateVisibility obstacles d d.position =
      if d.fieldOfView < 360 ∧
          |shortestBetween d.direction 0| > d.fieldOfView / 2 then 0
      else 1 := by
  have hy : d.position.y - d.position.y = (0 : ℝ) := sub_self _
  have hx : d.position.x - d.position.x = (0 : ℝ) := sub_self _
  simp only [calculateVisibility, distBetween_self, hy, hx, jsAtan2_zero]
  rw [if_neg (not_lt.mpr hR.le)]
  split_ifs with hang
  · rfl
  · rw [zero_div]
    ring

/-- Counterexample to claim C8: a target located exactly at the
position of `guardFacingAway` (distance 0, no obstacles) receives
strength 0, not 1: the angle test is not skipped, the degenerate angle
is computed as atan2(0,0) = 0, and the detector faces 180 degrees with
a 90 degree cone, so the gate rejects. -/
theorem C8_counterexample :
    distBetween guardFacingAway.position (⟨0, 0⟩ : Vec2) = 0 ∧
    calculateVisibility [] guardFacingAway ⟨0, 0⟩ = 0 ∧
    ((0 : ℝ) ≠ 1) := by
  have hcond : guardFacingAway.fieldOfView < 360 ∧
      |shortestBetween guardFacingAway.direction 0| >
        guardFacingAway.fieldOfView / 2 := by
    constructor
    · show (90 : ℝ) < 360
      norm_num
    · show |shortestBetween 180 0| > (90 : ℝ) / 2
      rw [shortestBetween_180_zero]
      norm_num
  refine ⟨distBetween_self _, ?_, by norm_num⟩
  rw [show (⟨0, 0⟩ : Vec2) = guardFacingAway.position from rfl,
    calculateVisibility_self [] guardFacingAway
      (by norm_num [guardFacingAway]) (hasLineOfSight_nil _ _),
    if_pos hcond]

/-- Claim C8 amended: at distance 0 the angle test is not skipped; the
degenerate target angle is computed as atan2(0,0) = 0, so a coincident
target receives strength 1 exactly when the field of view is
omnidirectional or the facing direction lies within fieldOfView / 2 of
the wrapped angle 0, and strength 0 otherwise (absent occlusion). -/
theorem C8_coincident (obstacles : List Rect) (d : IDetector)
    (hR : 0 < d.range)
    (hlos : hasLineOfSight obstacles d.position d.position) :
    (¬ (d.fieldOfView < 360 ∧
        |shortestBetween d.direction 0| > d.fieldOfView / 2) →
      calculateVisibility obstacles d d.position = 1) ∧
    ((d.fieldOfView < 360 ∧
        |shortestBetween d.direction 0| > d.fieldOfView / 2) →
      calculateVisibility obstacles d d.position = 0) := by
  rw [calculateVisibility_self obstacles d hR hlos]
  constructor
  · intro hang
    rw [if_neg hang]
  · intro hang
    rw [if_pos hang]

/-- Witness for the amended C8: the omnidirectional guard gives a
coincident target full strength 1. -/
theorem C8_coincident_witness :
    calculateVisibility [] guardOmni guardOmni.position = 1 :=
  (C8_coincident [] guardOmni (by norm_num [guardOmni])
    (hasLineOfSight_nil _ _)).1
    (by rintro ⟨h, -⟩
        norm_num [guardOmni] at h)

/-- When every gate passes and the target is in range, the visibility
is the linear falloff. -/
theorem calculateVisibility_clear (obstacles : List Rect) (d : IDetector)
    (target : Vec2)
    (hangle : ¬ (d.fieldOfView < 360 ∧
      |shortestBetween d.direction
        (jsAtan2 (target.y - d.position.y) (target.x - d.position.x))| >
        d.fieldOfView / 2))
    (hlos : hasLineOfSight obstacles d.position target)
    (hle : distBetween d.position target ≤ d.range) :
    calculateVisibility obstacles d target =
      1 - distBetween d.position target / d.range := by
  simp only [calculateVisibility]
  rw [if_neg (not_lt.mpr hle), if_neg hangle, if_neg (not_not_intro hlos)]

/-- The distance from the origin to (70, 0). -/
theorem dist70 : distBetween (⟨0, 0⟩ : Vec2) ⟨70, 0⟩ = 70 :=
  distBetween_eq (by norm_num) (by norm_num)

/-- The omnidirectional range-100 guard sees the target at (70, 0)
with strength 0.3. -/
theorem cv_guardOmni : calculateVisibility [] guardOmni ⟨70, 0⟩ = 0.3 := by
  rw [calculateVisibility_clear [] guardOmni ⟨70, 0⟩
    (by rintro ⟨h, -⟩
        norm_num [guardOmni] at h)
    (hasLineOfSight_nil _ _)
    (by norm_num [guardOmni, dist70])]
  norm_num [guardOmni, dist70]

/-- The omnidirectional range-175 guard sees the target at (70, 0)
with strength 0.6. -/
theorem cv_guardOmniFar : calculateVisibility [] guardOmniFar ⟨70, 0⟩ = 0.6 := by
  rw [calculateVisibility_clear [] guardOmniFar ⟨70, 0⟩
    (by rintro ⟨h, -⟩
        norm_num [guardOmniFar] at h)
    (hasLineOfSight_nil _ _)
    (by norm_num [guardOmniFar, dist70])]
  norm_num [guardOmniFar, dist70]

/-- Skipping inactive detectors up front does not change the visual
sweep: the loop itself skips them. -/
theorem visualSweep_filter (obstacles : List Rect) (detectors : List IDetector)
    (target : Vec2) :
    visualSweep obstacles (detectors.filter (fun d => d.isActive)) target =
      visualSweep obstacles detectors target := by
  induction detectors with
  | nil => rfl
  | cons d rest ih =>
    by_cases hd : d.isActive = true
    · simp [visualSweep, List.filter_cons, hd, ih]
    · simp [visualSweep, List.filter_cons, hd, ih]

/-- Every result the visual sweep produces references an active
detector. -/
theorem visualSweep_active (obstacles : List Rect) (detectors : List IDetector)
    (target : Vec2) :
    ∀ r ∈ (visualSweep obstacles detectors target).1,
      r.detector.isActive = true := by
  induction detectors with
  | nil =>
    intro r hr
    simp [visualSweep] at hr
  | cons d rest ih =>
    intro r hr
    by_cases hd : d.isActive = true
    · simp only [visualSweep, hd, if_true] at hr
      rcases List.mem_cons.mp hr with rfl | hr'
      · exact hd
      · exact ih r hr'
    · simp [visualSweep, hd] at hr
      exact ih r hr

/-- Each active non-visual detector contributes exactly the zero
result to the visual sweep. -/
theorem visualSweep_nonvisual_mem (obstacles : List Rect) (target : Vec2) :
    ∀ (detectors : List IDetector), ∀ d ∈ detectors, d.isActive = true →
      d.detectorType ≠ .visual →
      ({ detected := (0 : ℝ) > 0, detectionLevel := 0, detector := d,
         distance := distBetween d.position target } : DetectionResult) ∈
        (visualSweep obstacles detectors target).1 := by
  intro detectors
  induction detectors with
  | nil =>
    intro d hd
    simp at hd
  | cons x rest ih =>
    intro d hd hact ht
    rcases List.mem_cons.mp hd with rfl | hmem
    · simp only [visualSweep, hact, if_true]
      rw [if_neg ht]
      exact List.mem_cons_self _ _
    · by_cases hx : x.isActive = true
      · simp only [visualSweep, hx, if_true]
        exact List.mem_cons_of_mem _ (ih d hmem hact ht)
      · simp only [visualSweep, hx]
        simp only [Bool.false_eq_true, if_false]
        exact ih d hmem hact ht

/-- The running maximum of the visual sweep dominates every produced
detection level. -/
theorem visualSweep_le_max (obstacles : List Rect) (detectors : List IDetector)
    (target : Vec2) :
    ∀ r ∈ (visualSweep obstacles detectors target).1,
      r.detectionLevel ≤ (visualSweep obstacles detectors target).2 := by
  induction detectors with
  | nil =>
    intro r hr
    simp [visualSweep] at hr
  | cons d rest ih =>
    intro r hr
    by_cases hd : d.isActive = true
    · simp only [visualSweep, hd, if_true] at hr ⊢
      rcases List.mem_cons.mp hr with rfl | hr'
      · exact le_max_left _ _
      · exact le_trans (ih r hr') (le_max_right _ _)
    · simp only [visualSweep, hd] at hr ⊢
      simp only [Bool.false_eq_true, if_false] at hr ⊢
      exact ih r hr

/-- Evaluation of the visual sweep of `sysMixed` on the target at
(70, 0): one result of strength 0.3, running maximum 0.3. -/
theorem sweep_sysMixed :
    visualSweep sysMixed.obstacles sysMixed.detectors ⟨70, 0⟩ =
      ([{ detected := (0.3 : ℝ) > 0, detectionLevel := 0.3,
          detector := guardOmni, distance := 70 }], 0.3) := by
  show visualSweep [] [guardOmni] ⟨70, 0⟩ = _
  simp only [visualSweep, show guardOmni.isActive = true from rfl, if_true,
    show guardOmni.detectorType = DetectorType.visual from rfl]
  rw [show guardOmni.position = (⟨0, 0⟩ : Vec2) from rfl, dist70, cv_guardOmni]
  rw [max_eq_left (by norm_num)]

/-- Evaluation of the audio pass of `sysMixed` on the target at (70, 0)
with noise level 6: the zone triggers with strength 0.6. -/
theorem audio_sysMixed :
    checkAudioDetection sysMixed.audioZones ⟨70, 0⟩ 6 =
      [{ detected := True, detectionLevel := 0.6,
         detector := audioDetectorFor zoneOrigin, distance := 70 }] := by
  show checkAudioDetection [zoneOrigin] ⟨70, 0⟩ 6 = _
  simp only [checkAudioDetection,
    show zoneOrigin.center = (⟨0, 0⟩ : Vec2) from rfl,
    show zoneOrigin.radius = (100 : ℝ) from rfl,
    show zoneOrigin.sensitivity = (1 : ℝ) from rfl, dist70]
  rw [if_pos ⟨by norm_num, by norm_num⟩]
  norm_num

/-- Counterexample to claim C1: in `sysMixed` the tick against the
target at (70, 0) with noise 6 produces the per-sensor strengths 0.3
(visual) and 0.6 (audio), yet the state machine is driven with 0.3 and
lands in CAUTION; driving it with the claimed aggregate 0.6 — the
maximum over all results of the tick — would land in ALERT.  The audio
zone strengths are not part of the aggregate. -/
theorem C1_counterexample :
    ((checkDetection sysMixed ⟨70, 0⟩ 6).2.1.map
        (fun r => r.detectionLevel)) = [0.3, 0.6] ∧
    (checkDetection sysMixed ⟨70, 0⟩ 6).1.state.currentDetectionLevel =
      .CAUTION ∧
    (updateDetectionState 0.6 ⟨.SAFE, 0⟩).1.currentDetectionLevel = .ALERT ∧
    DetectionLevel.CAUTION ≠ DetectionLevel.ALERT := by
  refine ⟨?_, ?_, ?_, by decide⟩
  · show ((visualSweep sysMixed.obstacles sysMixed.detectors ⟨70, 0⟩).1 ++
      checkAudioDetection sysMixed.audioZones ⟨70, 0⟩ 6).map
        (fun r => r.detectionLevel) = [0.3, 0.6]
    rw [sweep_sysMixed, audio_sysMixed]
    simp
  · show (updateDetectionState
      (visualSweep sysMixed.obstacles sysMixed.detectors ⟨70, 0⟩).2
      sysMixed.state).1.currentDetectionLevel = .CAUTION
    rw [sweep_sysMixed]
    rw [updateDetectionState_fst]
    show (nextDetectionState 0.3 ⟨.SAFE, 0⟩).currentDetectionLevel = .CAUTION
    unfold nextDetectionState
    split_ifs <;> first | rfl | linarith
  · rw [updateDetectionState_fst]
    unfold nextDetectionState
    split_ifs <;> first | rfl | linarith

/-- Claim C1 amended: the aggregate strength driving the state machine
in `checkDetection` is the running maximum over the visual sweep alone
— it dominates every per-visual-detector strength of the tick, and for
exactly two active visual sensors of strengths 0.3 and 0.6 it is 0.6,
never their sum — but audio zone results, although returned, are not
folded into it. -/
theorem C1_visual_max (sys : DetectionSystem) (target : Vec2) (noise : ℝ) :
    ((checkDetection sys target noise).1.state =
      (updateDetectionState
        (visualSweep sys.obstacles sys.detectors target).2 sys.state).1) ∧
    (∀ r ∈ (visualSweep sys.obstacles sys.detectors target).1,
      r.detectionLevel ≤ (visualSweep sys.obstacles sys.detectors target).2) ∧
    (∀ d1 d2 : IDetector, d1.isActive = true → d2.isActive = true →
      d1.detectorType = .visual → d2.detectorType = .visual →
      calculateVisibility sys.obstacles d1 target = 0.3 →
      calculateVisibility sys.obstacles d2 target = 0.6 →
      (visualSweep sys.obstacles [d1, d2] target).2 = 0.6) := by
  refine ⟨rfl, visualSweep_le_max _ _ _, ?_⟩
  intro d1 d2 h1 h2 t1 t2 hv1 hv2
  simp only [visualSweep, h1, h2, if_true, t1, t2]
  rw [hv1, hv2]
  rw [max_eq_left (show (0 : ℝ) ≤ 0.6 by norm_num),
    max_eq_right (show (0.3 : ℝ) ≤ 0.6 by norm_num)]

/-- Witness for the amended C1: in `sysMixed` the two omnidirectional
guards of ranges 100 and 175 see the target at (70, 0) with strengths
0.3 and 0.6, and the sweep aggregate over exactly those two sensors is
0.6 (the maximum, not the sum 0.9). -/
theorem C1_visual_max_witness :
    (visualSweep sysMixed.obstacles [guardOmni, guardOmniFar] ⟨70, 0⟩).2 =
      0.6 :=
  (C1_visual_max sysMixed ⟨70, 0⟩ 6).2.2 guardOmni guardOmniFar rfl rfl rfl rfl
    cv_guardOmni cv_guardOmniFar

/-- Claim C10: only active detectors reach the sweep at all — filtering
the registry down to its active detectors changes neither the returned
results nor the resulting alert state — every produced result belongs
to an active detector, and an active detector of non-visual kind
always contributes the zero result (detection level 0, detected
false), so a registered motion detector never detects anything. -/
theorem C10_registry_gating (sys : DetectionSystem) (target : Vec2)
    (noise : ℝ) :
    ((checkDetection { sys with detectors := sys.detectors.filter (fun d => d.isActive) } target noise).1.state =
        (checkDetection sys target noise).1.state ∧
      (checkDetection { sys with detectors := sys.detectors.filter (fun d => d.isActive) } target noise).2 =
        (checkDetection sys target noise).2) ∧
    (∀ r ∈ (visualSweep sys.obstacles sys.detectors target).1,
      r.detector.isActive = true) ∧
    (∀ d ∈ sys.detectors, d.isActive = true → d.detectorType ≠ .visual →
      ({ detected := (0 : ℝ) > 0, detectionLevel := 0, detector := d,
         distance := distBetween d.position target } : DetectionResult) ∈
        (checkDetection sys target noise).2.1 ∧ ¬ ((0 : ℝ) > 0)) := by
  have h := visualSweep_filter sys.obstacles sys.detectors target
  refine ⟨⟨?_, ?_⟩, visualSweep_active _ _ _, ?_⟩
  · show (updateDetectionState
        (visualSweep sys.obstacles
          (sys.detectors.filter (fun d => d.isActive)) target).2
        sys.state).1 =
      (updateDetectionState
        (visualSweep sys.obstacles sys.detectors target).2 sys.state).1
    rw [h]
  · show ((visualSweep sys.obstacles
        (sys.detectors.filter (fun d => d.isActive)) target).1 ++
        checkAudioDetection sys.audioZones target noise,
      (updateDetectionState
        (visualSweep sys.obstacles
          (sys.detectors.filter (fun d => d.isActive)) target).2
        sys.state).2) =
      ((visualSweep sys.obstacles sys.detectors target).1 ++
        checkAudioDetection sys.audioZones target noise,
      (updateDetectionState
        (visualSweep sys.obstacles sys.detectors target).2 sys.state).2)
    rw [h]
  · intro d hd hact ht
    refine ⟨?_, by norm_num⟩
    show _ ∈ (visualSweep sys.obstacles sys.detectors target).1 ++
      checkAudioDetection sys.audioZones target noise
    exact List.mem_append_left _
      (visualSweep_nonvisual_mem sys.obstacles target sys.detectors d hd hact ht)

/-- Witness for C10: in `sysRegistry` the active motion detector
contributes exactly the zero, undetected result for the target at
(3, 4). -/
theorem C10_registry_gating_witness :
    ({ detected := (0 : ℝ) > 0, detectionLevel := 0, detector := motionDet,
       distance := distBetween motionDet.position ⟨3, 4⟩ } : DetectionResult) ∈
      (checkDetection sysRegistry ⟨3, 4⟩ 0).2.1 ∧ ¬ ((0 : ℝ) > 0) :=
  (C10_registry_gating sysRegistry ⟨3, 4⟩ 0).2.2 motionDet
    (by simp [sysRegistry]) rfl (by decide)

set_option maxRecDepth 8000 in
/-- Counterexample to claim C9: from a freshly spawned enemy, one tick
seeing the player at half the vision range for 0.3 s leaves the guard
SUSPICIOUS with suspicion 0.165, and four further blind 0.3 s ticks in
the suspicious look-around state decay the suspicion past zero without
re-clamping: the run ends with suspicion -0.015, outside [0, 1]. -/
theorem C9_counterexample :
    (runTicks [envSee, envBlind, envBlind, envBlind, envBlind]
      enemyDefault).suspicion < 0 := by
  have h1 : (EState.SUSPICIOUS = EState.PATROL) = False := by
    simp
  have h2 : (EState.SUSPICIOUS = EState.ALERT) = False := by
    simp
  have h3 : (EState.PATROL = EState.PATROL) = True := by
    simp
  have h4 : (EState.SUSPICIOUS = EState.SUSPICIOUS) = True := by
    simp
  norm_num [runTicks, physicsTick, updateDetection, suspiciousStep, alertStep,
    investigateStep, becomeAlert, becomeSuspicious, gclamp, enemyDefault,
    envSee, envBlind, min_def, max_def, h1, h2, h3, h4]

/-- Godot clamp keeps its value inside the interval. -/
theorem gclamp_bounds (x : ℚ) : 0 ≤ gclamp x 0 1 ∧ gclamp x 0 1 ≤ 1 :=
  ⟨le_min (le_max_right x 0) (by norm_num), min_le_right _ _⟩

/-- `_become_alert` does not change the suspicion level. -/
theorem becomeAlert_suspicion (e : EnemyS) :
    (becomeAlert e).suspicion = e.suspicion := by
  unfold becomeAlert
  split_ifs <;> rfl

/-- `_become_suspicious` does not change the suspicion level. -/
theorem becomeSuspicious_suspicion (e : EnemyS) :
    (becomeSuspicious e).suspicion = e.suspicion := by
  unfold becomeSuspicious
  split_ifs <;> rfl

/-- `_update_detection` leaves the decay parameter untouched. -/
theorem updateDetection_decay (env : TickEnv) (e : EnemyS) :
    (updateDetection env e).suspicionDecay = e.suspicionDecay := by
  simp only [updateDetection]
  split_ifs <;> simp [becomeAlert, becomeSuspicious] <;> split_ifs <;> rfl

/-- The suspicion level after `_update_detection` stays in the unit
interval whenever it entered the tick inside it: every branch that
touches it ends in the clamp. -/
theorem updateDetection_bounds (env : TickEnv) (e : EnemyS)
    (h0 : 0 ≤ e.suspicion) (h1 : e.suspicion ≤ 1) :
    0 ≤ (updateDetection env e).suspicion ∧
      (updateDetection env e).suspicion ≤ 1 := by
  simp only [updateDetection]
  split_ifs
  all_goals
    first
      | exact ⟨h0, h1⟩
      | (simp only [becomeAlert_suspicion, becomeSuspicious_suspicion]
         exact gclamp_bounds _)

/-- Claim C9 amended: `_update_detection` clamps the suspicion level
into [0, 1] on every tick, and the patrol, alert and investigate
handlers keep it there; but the SUSPICIOUS-state look-around handler
then decays the clamped value without re-clamping, so a tick processed
in the suspicious state can end with a negative suspicion level — by
at most suspicionDecay * delta / 2 below zero — which the next tick's
clamp repairs. -/
theorem C9_suspicion_bounds (env : TickEnv) (e : EnemyS)
    (h0 : 0 ≤ e.suspicion) (h1 : e.suspicion ≤ 1)
    (hd : 0 ≤ e.suspicionDecay) (hδ : 0 ≤ env.delta) :
    (physicsTick env e).suspicion ≤ 1 ∧
    -(e.suspicionDecay * env.delta * (1 / 2)) ≤ (physicsTick env e).suspicion ∧
    ((updateDetection env e).state ≠ .SUSPICIOUS →
      0 ≤ (physicsTick env e).suspicion) := by
  have hb := updateDetection_bounds env e h0 h1
  have hdec := updateDetection_decay env e
  have hmul : 0 ≤ e.suspicionDecay * env.delta * (1 / 2) := by positivity
  simp only [physicsTick]
  cases hst : (updateDetection env e).state
  case PATROL =>
    exact ⟨hb.2, le_trans (by linarith) hb.1, fun _ => hb.1⟩
  case SUSPICIOUS =>
    have hs : (suspiciousStep env.delta (updateDetection env e)).suspicion =
        (updateDetection env e).suspicion -
          e.suspicionDecay * env.delta * (1 / 2) := by
      simp only [suspiciousStep]
      rw [hdec]
      split_ifs <;> rfl
    refine ⟨?_, ?_, fun hne => absurd rfl hne⟩
    · show (suspiciousStep env.delta (updateDetection env e)).suspicion ≤ 1
      rw [hs]
      linarith [hb.2]
    · show -(e.suspicionDecay * env.delta * (1 / 2)) ≤
        (suspiciousStep env.delta (updateDetection env e)).suspicion
      rw [hs]
      linarith [hb.1]
  case ALERT =>
    have ha : (alertStep env.delta (updateDetection env e)).suspicion = 0 ∨
        (alertStep env.delta (updateDetection env e)).suspicion =
          (updateDetection env e).suspicion := by
      simp only [alertStep]
      split_ifs
      · exact Or.inl rfl
      · exact Or.inr rfl
    have ha0 : 0 ≤ (alertStep env.delta (updateDetection env e)).suspicion := by
      rcases ha with h | h <;> rw [h]
      · exact hb.1
    have ha1 : (alertStep env.delta (updateDetection env e)).suspicion ≤ 1 := by
      rcases ha with h | h <;> rw [h]
      · norm_num
      · exact hb.2
    exact ⟨ha1, le_trans (by linarith) ha0, fun _ => ha0⟩
  case INVESTIGATING =>
    have hi : (investigateStep env (updateDetection env e)).suspicion =
        (updateDetection env e).suspicion := by
      simp only [investigateStep]
      split_ifs <;> rfl
    refine ⟨?_, ?_, fun _ => ?_⟩
    · show (investigateStep env (updateDetection env e)).suspicion ≤ 1
      rw [hi]
      exact hb.2
    · show -(e.suspicionDecay * env.delta * (1 / 2)) ≤
        (investigateStep env (updateDetection env e)).suspicion
      rw [hi]
      linarith [hb.1]
    · show 0 ≤ (investigateStep env (updateDetection env e)).suspicion
      rw [hi]
      exact hb.1

/-- Witness for the amended C9: a suspicious guard at suspicion 1/2
with the default parameters stays within the stated bounds on a blind
tick. -/
theorem C9_suspicion_bounds_witness :
    (physicsTick envBlind
      { enemyDefault with state := .SUSPICIOUS, suspicion := 1/2 }).suspicion ≤ 1 ∧
    -(({ enemyDefault with state := .SUSPICIOUS, suspicion := 1/2 } : EnemyS).suspicionDecay *
        envBlind.delta * (1 / 2)) ≤
      (physicsTick envBlind
        { enemyDefault with state := .SUSPICIOUS, suspicion := 1/2 }).suspicion ∧
    ((updateDetection envBlind
        { enemyDefault with state := .SUSPICIOUS, suspicion := 1/2 }).state ≠ .SUSPICIOUS →
      0 ≤ (physicsTick envBlind
        { enemyDefault with state := .SUSPICIOUS, suspicion := 1/2 }).suspicion) :=
  C9_suspicion_bounds envBlind
    { enemyDefault with state := .SUSPICIOUS, suspicion := 1/2 }
    (by norm_num [enemyDefault]) (by norm_num [enemyDefault])
    (by norm_num [enemyDefault]) (by norm_num [envBlind])
